import Mathlib

/-!
Shallow embedding of src/app.py, a periodic relay that polls a database
view for pending message rows, forwards each row as a formatted Telegram
notification, and deletes the rows whose send succeeded.

Modelling conventions:
- Environment variables are a finite association list from names to
  string values; os.getenv returns an Option String (none when absent).
- Python truthiness of an optional string (used by the expression
  "not os.getenv(var)") is: none and the empty string are falsy.
- A database row (pyodbc Row) is a list of fields; each field is kept as
  its textual rendering, which is all the program ever does with a field
  (interpolation into strings, or passing the identifier through to the
  delete statement).
- External effects (database connect, query, commit, HTTP post) are
  modelled by behaviour oracles: boolean flags and row lists saying how
  the external world answers each call. A Python function that can raise
  is embedded with an Except-typed sub-step, and a try/except block is
  embedded by matching on that Except; a top-level function whose Lean
  return type is not Except cannot, by construction, propagate an
  exception to its caller.
- Logging and sleeping are side effects without influence on control
  flow or data flow; they are not modelled.
-/

namespace DbTelegramRelay

/-- Python values relevant to this program: None, strings and integers.
Used where the source relies on Python truthiness, as in the expression
that resolves the chat id in send_telegram_message. -/
inductive PyVal
  | vNone : PyVal
  | vStr : String → PyVal
  | vInt : Int → PyVal
deriving DecidableEq

/-- Python truthiness: None is falsy, a string is truthy iff non-empty,
an integer is truthy iff non-zero. -/
def PyVal.truthy : PyVal → Bool
  | PyVal.vNone => false
  | PyVal.vStr s => !s.data.isEmpty
  | PyVal.vInt n => decide (n ≠ 0)

/-- The Python operator "a or b": returns a when a is truthy, else b. -/
def pyOr (a b : PyVal) : PyVal :=
  if a.truthy then a else b

/-- Python truthiness of an optional string, as tested by the source
expression "not os.getenv(var)": absent and empty are both falsy. -/
def truthyOpt : Option String → Bool
  | none => false
  | some s => !s.data.isEmpty

/-- Strip leading and trailing whitespace characters from a character
list, as Python int() does to its string argument. -/
def trimSpaces (cs : List Char) : List Char :=
  ((cs.dropWhile Char.isWhitespace).reverse.dropWhile Char.isWhitespace).reverse

/-- Numeric value of a list of decimal digit characters. -/
def digitsVal (cs : List Char) : Nat :=
  cs.foldl (fun acc c => acc * 10 + (c.toNat - 48)) 0

/-- Modelled semantics of the Python built-in int(string): surrounding
whitespace is stripped, an optional single sign is allowed, and the rest
must be a non-empty run of ASCII decimal digits; otherwise a ValueError
is raised, modelled as none. Underscore digit separators and non-ASCII
digits, which CPython also accepts, are not modelled; no input in this
development uses them. -/
def pyInt (s : String) : Option Int :=
  match trimSpaces s.data with
  | '-' :: core =>
      if !core.isEmpty && core.all Char.isDigit then
        some (-(digitsVal core : Int))
      else none
  | '+' :: core =>
      if !core.isEmpty && core.all Char.isDigit then
        some ((digitsVal core : Int))
      else none
  | core =>
      if !core.isEmpty && core.all Char.isDigit then
        some ((digitsVal core : Int))
      else none

/-- The semantics of str.join(sep, parts) from Python. -/
def py_join (sep : String) : List String → String
  | [] => ""
  | [s] => s
  | s :: rest => s ++ sep ++ py_join sep rest

/-- Decidable equality of Except values, so that run results of the
embedded functions can be evaluated on concrete inputs. -/
instance {ε α : Type} [DecidableEq ε] [DecidableEq α] :
    DecidableEq (Except ε α) := fun x y =>
  match x, y with
  | Except.ok a, Except.ok b =>
      decidable_of_iff (a = b)
        ⟨fun h => by rw [h], fun h => by cases h; rfl⟩
  | Except.error a, Except.error b =>
      decidable_of_iff (a = b)
        ⟨fun h => by rw [h], fun h => by cases h; rfl⟩
  | Except.ok _, Except.error _ => Decidable.isFalse (fun h => Except.noConfusion h)
  | Except.error _, Except.ok _ => Decidable.isFalse (fun h => Except.noConfusion h)

/-- A process environment: a finite map from variable names to values,
as an association list. -/
abbrev Env := List (String × String)

/-- os.getenv(name): the value of the first binding of name, or none. -/
def getenv (env : Env) (name : String) : Option String :=
  (env.find? (fun p => p.1 == name)).map (fun p => p.2)

/-- os.getenv(name, default): getenv with a default for absent names.
Note that a variable bound to the empty string is present, so the
default is not used for it. -/
def getenvD (env : Env) (name default : String) : String :=
  (getenv env name).getD default

/-- The required_vars list of _validate_config, in source order. -/
def required_vars : List String :=
  ["DB_SERVER", "DB_DATABASE", "DB_USERNAME", "DB_PASSWORD",
   "TELEGRAM_BOT_TOKEN", "TELEGRAM_CHAT_ID"]

/-- The list comprehension of _validate_config: the required variables
whose os.getenv value is falsy (absent or empty), in required_vars
order. -/
def missing_vars (env : Env) : List String :=
  required_vars.filter (fun v => !truthyOpt (getenv env v))

/-- Errors that DatabaseTelegramBot construction can raise. Both are
ValueError in Python; the constructor distinguishes their payloads:
invalidIntLiteral carries the literal that int() rejected (the CPython
message is: invalid literal for int() with base 10, followed by the
literal, and mentions no variable name), missingRequired carries the
list of variable names interpolated into the message of
_validate_config. -/
inductive InitError
  | invalidIntLiteral : String → InitError
  | missingRequired : List String → InitError
deriving DecidableEq

/-- The configuration-setting names that appear in the text of an
error: the int() ValueError names no setting, the _validate_config
ValueError names exactly the missing required variables. -/
def InitError.namedSettings : InitError → List String
  | InitError.invalidIntLiteral _ => []
  | InitError.missingRequired vs => vs

/-- The state of a constructed DatabaseTelegramBot object: the fields
assigned in its constructor. Fields read by plain os.getenv keep the
Option type; fields read with a default are plain strings; the poll
interval has been through int(). -/
structure DatabaseTelegramBot where
  db_server : Option String
  db_database : Option String
  db_username : Option String
  db_password : Option String
  db_view : String
  db_table : String
  telegram_token : Option String
  telegram_chat_id : Option String
  poll_interval : Int
deriving DecidableEq

/-- Embedding of _validate_config: raises a ValueError naming exactly
the missing required variables when any required variable is absent or
empty. -/
def validate_config (env : Env) : Except InitError Unit :=
  if (missing_vars env).isEmpty then Except.ok ()
  else Except.error (InitError.missingRequired (missing_vars env))

/-- Embedding of the DatabaseTelegramBot constructor. The plain getenv
assignments cannot fail; then the poll interval line applies int() to
the POLL_INTERVAL value (default 30), which is the first point of
possible failure; only after that does _validate_config run. -/
def DatabaseTelegramBot.init (env : Env) : Except InitError DatabaseTelegramBot :=
  let poll_literal := getenvD env "POLL_INTERVAL" "30"
  match pyInt poll_literal with
  | none => Except.error (InitError.invalidIntLiteral poll_literal)
  | some n =>
    match validate_config env with
    | Except.error e => Except.error e
    | Except.ok _ =>
      Except.ok
        { db_server := getenv env "DB_SERVER"
          db_database := getenv env "DB_DATABASE"
          db_username := getenv env "DB_USERNAME"
          db_password := getenv env "DB_PASSWORD"
          db_view := getenvD env "DB_VIEW" "your_view_name"
          db_table := getenvD env "DB_TABLE" "your_table_name"
          telegram_token := getenv env "TELEGRAM_BOT_TOKEN"
          telegram_chat_id := getenv env "TELEGRAM_CHAT_ID"
          poll_interval := n }

/-- A database row: the list of its fields, each kept as its textual
rendering. The read query selects four columns, but the source also
defends against shorter rows, so the type places no length bound. -/
abbrev DbRecord := List String

/-- Abstraction of the Python textual rendering str(record) of a row,
used by the short-row fallback of format_message. -/
def str_record (r : DbRecord) : String :=
  "(" ++ py_join ", " r ++ ")"

/-- Embedding of format_message: a row with at least four fields is
rendered as a fixed five-line block (header, then the labelled
identifier, recipient, message body and creation timestamp, the labels
in bold markup); extra fields beyond the first four are ignored by the
slice. A shorter row falls back to one line holding its raw textual
rendering. The parts list is joined with a newline, as in the source.
The header characters reproduce the bytes of the source file. -/
def format_message (record : DbRecord) : String :=
  if 4 ≤ record.length then
    py_join "\n"
      ["<b>ðŸ“¨ New Message</b>",
       "<b>ID:</b> " ++ record.getD 0 "",
       "<b>To:</b> " ++ record.getD 2 "",
       "<b>Message:</b> " ++ record.getD 1 "",
       "<b>Time:</b> " ++ record.getD 3 ""]
  else
    py_join "\n" ["<b>ðŸ“¨ Record:</b> " ++ str_record record]

/-- How the external world answers the database calls of one cycle:
whether pyodbc.connect succeeds, whether the read query (cursor
creation, execute and fetchall) succeeds and with which rows, and
whether the bulk delete (execute and commit) succeeds. -/
structure DBBehavior where
  connectOk : Bool
  queryOk : Bool
  rows : List DbRecord
  deleteOk : Bool
deriving DecidableEq

/-- Embedding of get_db_connection: builds the connection string and
calls pyodbc.connect. On failure the source logs and re-raises, so the
caller observes the exception; modelled as an Except value. -/
def get_db_connection (db : DBBehavior) : Except String Unit :=
  if db.connectOk then Except.ok ()
  else Except.error "Failed to connect to database"

/-- Observable outcome of one fetch_pending_messages call: the returned
rows, whether a connection was successfully opened inside the call, and
whether conn.close() ran before the call returned. -/
structure FetchResult where
  result : List DbRecord
  opened : Bool
  connClosed : Bool
deriving DecidableEq

/-- Embedding of fetch_pending_messages. The whole body sits in a
try/except whose handler logs and returns an empty list, so the call
never propagates an exception (the Lean return type is not Except). On
the success path the source closes cursor and connection and returns
the rows. When the query fails after the connection was opened, control
jumps to the handler, which returns the empty list without ever
reaching the conn.close() line: there is no finally block and no
context manager in the source. -/
def fetch_pending_messages (db : DBBehavior) : FetchResult :=
  match get_db_connection db with
  | Except.error _ =>
      { result := [], opened := false, connClosed := false }
  | Except.ok _ =>
      if db.queryOk then
        { result := db.rows, opened := true, connClosed := true }
      else
        { result := [], opened := true, connClosed := false }

/-- How the messaging endpoint answers one HTTP post: an acknowledgement
with a non-error status, an error status (raise_for_status raises
HTTPError), a network error, or a timeout. The latter three are all
subclasses of requests RequestException and are caught by the handler
in send_telegram_message. -/
inductive HttpOutcome
  | success : HttpOutcome
  | httpStatusError : HttpOutcome
  | networkError : HttpOutcome
  | timeout : HttpOutcome
deriving DecidableEq

/-- Observable outcome of one send_telegram_message call: the returned
boolean, the chat id and text placed in the request payload, the
constant parse mode, and how many HTTP posts the call issued. -/
structure SendResult where
  ok : Bool
  chat_id : PyVal
  text : String
  parse_mode : String
  postAttempts : Nat
deriving DecidableEq

/-- Embedding of send_telegram_message. The chat id is resolved by the
Python expression: chat_id or self.telegram_chat_id, so any falsy
argument (None, empty string, zero) is replaced by the configured chat
id. Exactly one post is issued with a 30 second timeout; True is
returned only when it comes back without error; every RequestException
(error status raised by raise_for_status, network error, timeout) is
caught, logged, and turned into False, never re-raised. -/
def send_telegram_message (telegram_chat_id : PyVal) (net : HttpOutcome)
    (message_text : String) (chat_id : PyVal) : SendResult :=
  let resolved := pyOr chat_id telegram_chat_id
  match net with
  | HttpOutcome.success =>
      { ok := true, chat_id := resolved, text := message_text,
        parse_mode := "HTML", postAttempts := 1 }
  | _ =>
      { ok := false, chat_id := resolved, text := message_text,
        parse_mode := "HTML", postAttempts := 1 }

/-- The identifier column of a row, as bound to the placeholders of the
delete statement: its first field. -/
def rowId (r : DbRecord) : String :=
  r.getD 0 ""

/-- Observable outcome of one delete_processed_records call: the rows
still in the store afterwards, and whether the call opened a store
connection at all. -/
structure DeleteResult where
  store : List DbRecord
  opened : Bool
deriving DecidableEq

/-- Embedding of delete_processed_records, acting on a store modelled
as the list of rows of the target table. An empty identifier list
returns immediately, before any connection is made. Otherwise the body
runs inside a try/except whose handler only logs, so a connection
failure or a failing delete or commit leaves the store unchanged and
raises nothing to the caller (the Lean return type is not Except); a
successful bulk delete removes exactly the rows whose identifier is in
the list. -/
def delete_processed_records (db : DBBehavior) (store : List DbRecord)
    (record_ids : List String) : DeleteResult :=
  if record_ids.isEmpty then
    { store := store, opened := false }
  else
    match get_db_connection db with
    | Except.error _ => { store := store, opened := false }
    | Except.ok _ =>
        if db.deleteOk then
          { store := store.filter (fun r => !record_ids.contains (rowId r)),
            opened := true }
        else
          { store := store, opened := true }

/-- How one send attempt inside the cycle turns out, indexed by the
position of the record in the fetched order: the call returns True,
returns False, or an unexpected exception escapes the call into the
per-record except handler. -/
inductive SendOutcome
  | ok : SendOutcome
  | fail : SendOutcome
  | send_raises : SendOutcome
deriving DecidableEq

/-- State of the per-record loop of process_messages after it ends:
the successful_ids list, how many records had their loop body entered,
and whether an exception escaped the loop into the outer handler. -/
structure LoopResult where
  successful_ids : List String
  processed : Nat
  aborted : Bool
deriving DecidableEq

/-- Embedding of the for-loop of process_messages. For each record, the
body formats it (format_message is total) and attempts the send. When
the send returns True, the source evaluates record[0] and appends it;
when it returns False, the warning log line also evaluates record[0];
when the send raises, the per-record handler catches and its log line
evaluates record[0]. For a row with at least one field all three paths
continue with the next record. For a row with no fields, record[0]
raises IndexError on every path, and in particular inside the except
handler itself, so the exception escapes the loop and the remaining
records are never reached. -/
def processRecords (outcome : Nat → SendOutcome) :
    List DbRecord → Nat → List String → LoopResult
  | [], _, acc => { successful_ids := acc, processed := 0, aborted := false }
  | record :: rest, i, acc =>
    match outcome i, record.head? with
    | SendOutcome.ok, some record_id =>
        let r := processRecords outcome rest (i + 1) (acc ++ [record_id])
        { successful_ids := r.successful_ids, processed := r.processed + 1,
          aborted := r.aborted }
    | SendOutcome.fail, some _ =>
        let r := processRecords outcome rest (i + 1) acc
        { successful_ids := r.successful_ids, processed := r.processed + 1,
          aborted := r.aborted }
    | SendOutcome.send_raises, some _ =>
        let r := processRecords outcome rest (i + 1) acc
        { successful_ids := r.successful_ids, processed := r.processed + 1,
          aborted := r.aborted }
    | _, none =>
        { successful_ids := acc, processed := 1, aborted := true }

/-- Observable outcome of one process_messages cycle: the final
successful_ids list, each argument passed to delete_processed_records
(in call order), how many records had their loop body entered, and
whether the outer except handler fired. -/
structure CycleResult where
  successful_ids : List String
  deleteCalls : List (List String)
  processed : Nat
  aborted : Bool
deriving DecidableEq

/-- Embedding of process_messages, taking the list of records returned
by fetch_pending_messages and the per-position send outcomes. An empty
fetch ends the cycle at once. Otherwise the loop runs; if an exception
escaped it, the outer handler catches it and the function returns
without reaching the delete step; otherwise delete_processed_records is
called exactly when successful_ids is non-empty, with that list. -/
def process_messages (outcome : Nat → SendOutcome)
    (records : List DbRecord) : CycleResult :=
  if records.isEmpty then
    { successful_ids := [], deleteCalls := [], processed := 0, aborted := false }
  else
    let r := processRecords outcome records 0 []
    if r.aborted then
      { successful_ids := r.successful_ids, deleteCalls := [],
        processed := r.processed, aborted := true }
    else if r.successful_ids.isEmpty then
      { successful_ids := r.successful_ids, deleteCalls := [],
        processed := r.processed, aborted := false }
    else
      { successful_ids := r.successful_ids, deleteCalls := [r.successful_ids],
        processed := r.processed, aborted := false }

/-- Specification-side description of the cycle result: the first
fields of the records whose send attempt (counted from position i)
returned True, in fetched order, which is also the order in which the
sends succeeded. -/
def okIdsFrom (outcome : Nat → SendOutcome) :
    Nat → List DbRecord → List String
  | _, [] => []
  | i, record :: rest =>
    match outcome i, record.head? with
    | SendOutcome.ok, some record_id => record_id :: okIdsFrom outcome (i + 1) rest
    | _, _ => okIdsFrom outcome (i + 1) rest

/-- Identifiers whose send succeeded, in order, for a whole cycle. -/
def okIds (outcome : Nat → SendOutcome) (records : List DbRecord) : List String :=
  okIdsFrom outcome 0 records

/-- Test fixture: three well-formed rows fetched in one cycle. -/
def records_c1 : List DbRecord :=
  [["1", "hi", "a", "t1"], ["2", "bye", "b", "t2"], ["3", "x", "c", "t3"]]

/-- Test fixture: the send of the second record returns False, the
other sends return True. -/
def outcome_c1 : Nat → SendOutcome :=
  fun i => if i = 1 then SendOutcome.fail else SendOutcome.ok

/-- Test fixture: two well-formed rows fetched in one cycle. -/
def records_c2 : List DbRecord :=
  [["1", "hi", "a", "t1"], ["2", "bye", "b", "t2"]]

/-- Test fixture: an unexpected error escapes the send call of the
first record, the second send returns True. -/
def outcome_c2 : Nat → SendOutcome :=
  fun i => if i = 0 then SendOutcome.send_raises else SendOutcome.ok

/-- Test fixture: all six required settings present and non-empty, with
a POLL_INTERVAL value that int() rejects. -/
def env_c5_bad : Env :=
  [("DB_SERVER", "s"), ("DB_DATABASE", "d"), ("DB_USERNAME", "u"),
   ("DB_PASSWORD", "p"), ("TELEGRAM_BOT_TOKEN", "t"),
   ("TELEGRAM_CHAT_ID", "c"), ("POLL_INTERVAL", "abc")]

/-- Test fixture: all six required settings present and non-empty, no
POLL_INTERVAL binding, so the default 30 is used. -/
def env_c5_ok : Env :=
  [("DB_SERVER", "s"), ("DB_DATABASE", "d"), ("DB_USERNAME", "u"),
   ("DB_PASSWORD", "p"), ("TELEGRAM_BOT_TOKEN", "t"),
   ("TELEGRAM_CHAT_ID", "c")]

/-- Test fixture: the username is absent and the password is bound to
the empty string; the other required settings are present. -/
def env_c5_missing : Env :=
  [("DB_SERVER", "s"), ("DB_DATABASE", "d"), ("DB_PASSWORD", ""),
   ("TELEGRAM_BOT_TOKEN", "t"), ("TELEGRAM_CHAT_ID", "c")]

/-- Test fixture: all six required settings present, POLL_INTERVAL
bound to a negative integer literal. -/
def env_c9_neg : Env :=
  [("DB_SERVER", "s"), ("DB_DATABASE", "d"), ("DB_USERNAME", "u"),
   ("DB_PASSWORD", "p"), ("TELEGRAM_BOT_TOKEN", "t"),
   ("TELEGRAM_CHAT_ID", "c"), ("POLL_INTERVAL", "-7")]

/-- Test fixture: only a malformed POLL_INTERVAL binding; every
required setting is absent. -/
def env_c9_parse : Env := [("POLL_INTERVAL", "abc")]

/-- Test fixture: an external world where every database call succeeds
and the view holds one row. -/
def db_allOk : DBBehavior :=
  { connectOk := true, queryOk := true, rows := [["1", "a", "b", "c"]],
    deleteOk := true }

/-- Test fixture: the connection opens, the read query fails. -/
def db_queryFail : DBBehavior :=
  { connectOk := true, queryOk := false, rows := [], deleteOk := true }

/-- Test fixture: the connection cannot be opened, though the view
holds a row. -/
def db_connFail : DBBehavior :=
  { connectOk := false, queryOk := true, rows := [["1", "a", "b", "c"]],
    deleteOk := true }

/-- Test fixture: the connection opens, the bulk delete fails. -/
def db_deleteFail : DBBehavior :=
  { connectOk := true, queryOk := true, rows := [], deleteOk := false }

/-- Loop invariant of the per-record loop: when every fetched row has
at least one field, the loop visits every record, never aborts, and
appends to the accumulator exactly the identifiers of the records
whose send returned True, in order. -/
theorem processRecords_complete (outcome : Nat → SendOutcome) :
    ∀ (rs : List DbRecord) (i : Nat) (acc : List String),
      (∀ r ∈ rs, r ≠ ([] : DbRecord)) →
      processRecords outcome rs i acc =
        { successful_ids := acc ++ okIdsFrom outcome i rs,
          processed := rs.length, aborted := false } := by
  intro rs
  induction rs with
  | nil =>
      intro i acc _
      simp [processRecords, okIdsFrom]
  | cons a as ih =>
      intro i acc h
      obtain ⟨x, xs, rfl⟩ : ∃ x xs, a = x :: xs := by
        cases a with
        | nil => exact absurd rfl (h [] (List.mem_cons_self _ _))
        | cons x xs => exact ⟨x, xs, rfl⟩
      have has : ∀ r ∈ as, r ≠ ([] : DbRecord) :=
        fun r hr => h r (List.mem_cons_of_mem _ hr)
      cases ho : outcome i with
      | ok => simp [processRecords, okIdsFrom, ho, ih (i + 1) (acc ++ [x]) has]
      | fail => simp [processRecords, okIdsFrom, ho, ih (i + 1) acc has]
      | send_raises => simp [processRecords, okIdsFrom, ho, ih (i + 1) acc has]

/-- C1: for every relay cycle over fetched records that each carry an
identifier field, the successful_ids list is exactly the identifiers of
the records whose send succeeded, in the order the sends succeeded, and
delete_processed_records is called exactly once with exactly that list
when it is non-empty, and not at all when it is empty. -/
theorem c1_cycle_deletes_exactly_successful_ids
    (outcome : Nat → SendOutcome) (records : List DbRecord)
    (h : ∀ r ∈ records, r ≠ ([] : DbRecord)) :
    (process_messages outcome records).successful_ids = okIds outcome records ∧
    (process_messages outcome records).deleteCalls =
      (if okIds outcome records = [] then [] else [okIds outcome records]) := by
  by_cases hrec : records = []
  · subst hrec
    simp [process_messages, okIds, okIdsFrom]
  · have hpr := processRecords_complete outcome records 0 [] h
    by_cases hok : okIdsFrom outcome 0 records = []
    · simp [process_messages, hrec, hpr, okIds, hok]
    · simp [process_messages, hrec, hpr, okIds, hok]

/-- C1 witness: three fetched rows, the second send fails; the delete
step receives exactly the first and third identifiers, in order. -/
theorem c1_witness :
    (∀ r ∈ records_c1, r ≠ ([] : DbRecord)) ∧
    ((process_messages outcome_c1 records_c1).successful_ids =
        okIds outcome_c1 records_c1 ∧
      (process_messages outcome_c1 records_c1).deleteCalls =
        (if okIds outcome_c1 records_c1 = [] then []
         else [okIds outcome_c1 records_c1])) ∧
    (process_messages outcome_c1 records_c1).deleteCalls = [["1", "3"]] :=
  ⟨by decide,
   c1_cycle_deletes_exactly_successful_ids outcome_c1 records_c1 (by decide),
   by decide⟩

/-- C2 counterexample: a fetched sequence holding a record with no
fields at all, followed by a well-formed record whose send would
succeed. The cycle enters the loop body for the first record only: the
per-record handler itself evaluates record[0], raises, and the second
record is skipped, refuting the claim that no single bad record causes
the remaining records of the cycle to be skipped. -/
theorem c2_counterexample :
    (process_messages (fun _ => SendOutcome.ok)
        [([] : DbRecord), ["2", "x", "y", "z"]]).processed = 1 ∧
    (process_messages (fun _ => SendOutcome.ok)
        [([] : DbRecord), ["2", "x", "y", "z"]]).aborted = true ∧
    ([([] : DbRecord), ["2", "x", "y", "z"]].length = 2) := by decide

/-- C2 as amended: for every sequence of fetched records that each have
at least one field, any unexpected error raised while processing a
single record is caught and logged with the record identifier and the
cycle continues with the next record, so the loop body is entered for
every record and the outer handler never fires; a record with no fields
at all, however, makes the per-record handler itself raise and the
remaining records of the cycle are skipped. -/
theorem c2_per_record_errors_do_not_abort
    (outcome : Nat → SendOutcome) (records : List DbRecord)
    (h : ∀ r ∈ records, r ≠ ([] : DbRecord)) :
    (process_messages outcome records).processed = records.length ∧
    (process_messages outcome records).aborted = false := by
  by_cases hrec : records = []
  · subst hrec
    simp [process_messages]
  · have hpr := processRecords_complete outcome records 0 [] h
    by_cases hok : okIdsFrom outcome 0 records = []
    · simp [process_messages, hrec, hpr, hok]
    · simp [process_messages, hrec, hpr, hok]

/-- C2 witness: two well-formed rows, an unexpected error escaping the
send of the first; both loop bodies run and the cycle is not aborted. -/
theorem c2_witness :
    (∀ r ∈ records_c2, r ≠ ([] : DbRecord)) ∧
    ((process_messages outcome_c2 records_c2).processed = records_c2.length ∧
      (process_messages outcome_c2 records_c2).aborted = false) :=
  ⟨by decide, c2_per_record_errors_do_not_abort outcome_c2 records_c2 (by decide)⟩

/-- C3 counterexample: an execution in which the connection opens and
the read query then fails; fetch_pending_messages returns control with
the connection still open, because the except handler returns before
the close line is reached, refuting the claim that an opened connection
is always closed before the call returns. -/
theorem c3_counterexample :
    (fetch_pending_messages db_queryFail).opened = true ∧
    (fetch_pending_messages db_queryFail).connClosed = false := by decide

/-- C3 as amended: when the connection was opened, it is closed before
fetch_pending_messages returns exactly when the read query succeeded;
on query failure the call returns with the connection not closed,
leaving it to garbage collection. -/
theorem c3_conn_closed_iff_query_ok (db : DBBehavior)
    (h : (fetch_pending_messages db).opened = true) :
    (fetch_pending_messages db).connClosed = db.queryOk := by
  cases hc : db.connectOk <;> cases hq : db.queryOk <;>
    simp [fetch_pending_messages, get_db_connection, hc, hq] at h ⊢

/-- C3 witness: a run whose connection opens and whose query succeeds;
the connection is closed before the call returns. -/
theorem c3_witness :
    (fetch_pending_messages db_allOk).opened = true ∧
    (fetch_pending_messages db_allOk).connClosed = db_allOk.queryOk :=
  ⟨by decide, c3_conn_closed_iff_query_ok db_allOk (by decide)⟩

/-- C4: every failure inside fetch_pending_messages, whether the
connection fails to open or the read query fails, makes the call return
the empty list to its caller; the total, non-Except return type of the
embedding reflects that the try/except around the whole body never lets
an exception propagate out of the call. -/
theorem c4_fetch_failure_returns_empty (db : DBBehavior)
    (h : db.connectOk = false ∨ db.queryOk = false) :
    (fetch_pending_messages db).result = [] := by
  rcases h with h | h
  · simp [fetch_pending_messages, get_db_connection, h]
  · cases hc : db.connectOk
    · simp [fetch_pending_messages, get_db_connection, hc]
    · simp [fetch_pending_messages, get_db_connection, hc, h]

/-- C4 witness: the connection fails to open while the view holds a
row; the call still returns the empty list. -/
theorem c4_witness :
    (db_connFail.connectOk = false ∨ db_connFail.queryOk = false) ∧
    (fetch_pending_messages db_connFail).result = [] :=
  ⟨Or.inl rfl, c4_fetch_failure_returns_empty db_connFail (Or.inl rfl)⟩

/-- C6: format_message is a function of the record alone, so equal
records yield equal text; a record with at least four fields renders
the bold-labelled identifier, recipient, message body and creation
timestamp in that fixed order on separate lines after the header; a
record with fewer than four fields falls back to the raw textual
rendering of the record. -/
theorem c6_format_message_deterministic_shape :
    (∀ r1 r2 : DbRecord, r1 = r2 → format_message r1 = format_message r2) ∧
    (∀ record_id message_text recipient created_at : String,
      ∀ rest : List String,
      format_message
          (record_id :: message_text :: recipient :: created_at :: rest) =
        "<b>ðŸ“¨ New Message</b>" ++ "\n" ++
          ("<b>ID:</b> " ++ record_id) ++ "\n" ++
          ("<b>To:</b> " ++ recipient) ++ "\n" ++
          ("<b>Message:</b> " ++ message_text) ++ "\n" ++
          ("<b>Time:</b> " ++ created_at)) ∧
    (∀ r : DbRecord, r.length < 4 →
      format_message r = "<b>ðŸ“¨ Record:</b> " ++ str_record r) := by
  refine ⟨fun r1 r2 h => by rw [h], fun i m rcp t rest => ?_, fun r hr => ?_⟩
  · have hlen : 4 ≤ (i :: m :: rcp :: t :: rest).length := by
      simp only [List.length_cons]
      omega
    simp [format_message, hlen, py_join, String.append_assoc]
  · have hlen : ¬ 4 ≤ r.length := by omega
    simp [format_message, hlen, py_join]

/-- C6 witness: a four-field record rendered as the five-line block,
and a one-field record rendered through the raw fallback. -/
theorem c6_witness :
    (records_c2.getD 0 [] = records_c2.getD 0 [] ∧
      format_message (records_c2.getD 0 []) =
        format_message (records_c2.getD 0 [])) ∧
    format_message ["1", "hi", "a", "t1"] =
      "<b>ðŸ“¨ New Message</b>" ++ "\n" ++
        ("<b>ID:</b> " ++ "1") ++ "\n" ++
        ("<b>To:</b> " ++ "a") ++ "\n" ++
        ("<b>Message:</b> " ++ "hi") ++ "\n" ++
        ("<b>Time:</b> " ++ "t1") ∧
    (["x"] : DbRecord).length < 4 ∧
    format_message ["x"] = "<b>ðŸ“¨ Record:</b> " ++ str_record ["x"] :=
  ⟨⟨rfl, c6_format_message_deterministic_shape.1 _ _ rfl⟩,
   c6_format_message_deterministic_shape.2.1 "1" "hi" "a" "t1" [],
   by decide,
   c6_format_message_deterministic_shape.2.2 ["x"] (by decide)⟩

/-- C7: send_telegram_message returns True exactly when the endpoint
acknowledges the single post with a non-error status; an error status,
a network error and a timeout all land in the RequestException handler,
which logs and returns False rather than re-raising; and exactly one
HTTP post is issued per call, so the call performs no retry. -/
theorem c7_send_result (telegram_chat_id : PyVal) (net : HttpOutcome)
    (message_text : String) (chat_id : PyVal) :
    ((send_telegram_message telegram_chat_id net message_text chat_id).ok = true ↔
      net = HttpOutcome.success) ∧
    (send_telegram_message telegram_chat_id net message_text chat_id).postAttempts
      = 1 := by
  cases net <;> simp [send_telegram_message]

/-- C8: the delete step never raises to its caller (total, non-Except
return type); with an empty identifier list it returns at once, opening
no store connection and leaving the store untouched; and for any
identifier list, a connection failure or a failure of the bulk delete
or commit is logged and swallowed, leaving every affected row in the
store for a later cycle to fetch again. -/
theorem c8_delete_swallow_failures (db : DBBehavior) (store : List DbRecord)
    (record_ids : List String) :
    (record_ids = [] →
      delete_processed_records db store record_ids =
        { store := store, opened := false }) ∧
    ((db.connectOk = false ∨ db.deleteOk = false) →
      (delete_processed_records db store record_ids).store = store) := by
  constructor
  · intro hid
    subst hid
    simp [delete_processed_records]
  · intro h
    cases hid : record_ids.isEmpty
    · rcases h with h | h
      · simp [delete_processed_records, hid, get_db_connection, h]
      · cases hc : db.connectOk
        · simp [delete_processed_records, hid, get_db_connection, hc]
        · simp [delete_processed_records, hid, get_db_connection, hc, h]
    · simp [delete_processed_records, hid]

/-- C8 witness: the empty identifier list leaves the store untouched
without opening a connection, and a failing bulk delete of one
identifier leaves the matching row in the store. -/
theorem c8_witness :
    (delete_processed_records db_allOk [["1", "a", "b", "c"]] [] =
      { store := [["1", "a", "b", "c"]], opened := false }) ∧
    (delete_processed_records db_deleteFail [["1", "a", "b", "c"]] ["1"]).store =
      [["1", "a", "b", "c"]] :=
  ⟨(c8_delete_swallow_failures db_allOk [["1", "a", "b", "c"]] []).1 rfl,
   (c8_delete_swallow_failures db_deleteFail [["1", "a", "b", "c"]] ["1"]).2
     (Or.inr rfl)⟩

/-- C10: the chat id placed in the request payload is the configured
destination whenever the supplied destination is falsy (None, the empty
string, zero), and the supplied destination itself only when it is
truthy, so an explicitly supplied falsy destination is never used as
the actual destination. -/
theorem c10_falsy_chat_id_replaced (telegram_chat_id : PyVal)
    (net : HttpOutcome) (message_text : String) (chat_id : PyVal) :
    (chat_id.truthy = false →
      (send_telegram_message telegram_chat_id net message_text chat_id).chat_id =
        telegram_chat_id) ∧
    (chat_id.truthy = true →
      (send_telegram_message telegram_chat_id net message_text chat_id).chat_id =
        chat_id) := by
  constructor <;> intro h <;> cases net <;>
    simp [send_telegram_message, pyOr, h]

/-- C5 counterexample: an environment with all six required settings
present and non-empty in which construction nevertheless fails, because
the poll interval line applies int() to the POLL_INTERVAL value and
raises before _validate_config runs, refuting the claim that
construction succeeds in every such environment. -/
theorem c5_counterexample :
    (∀ v ∈ required_vars, truthyOpt (getenv env_c5_bad v) = true) ∧
    DatabaseTelegramBot.init env_c5_bad =
      Except.error (InitError.invalidIntLiteral "abc") := by decide

/-- C5 as amended: provided the POLL_INTERVAL value (defaulting to 30
when absent) is accepted by int(), construction succeeds when every
required setting is present and non-empty, and otherwise fails with the
error naming exactly the required settings that are absent or empty. -/
theorem c5_required_settings_validated (env : Env)
    (hpoll : ∃ n, pyInt (getenvD env "POLL_INTERVAL" "30") = some n) :
    (missing_vars env = [] →
      ∃ bot, DatabaseTelegramBot.init env = Except.ok bot) ∧
    (missing_vars env ≠ [] →
      DatabaseTelegramBot.init env =
        Except.error (InitError.missingRequired (missing_vars env))) ∧
    (∀ v, v ∈ missing_vars env ↔
      (v ∈ required_vars ∧ truthyOpt (getenv env v) = false)) := by
  obtain ⟨n, hn⟩ := hpoll
  refine ⟨?_, ?_, ?_⟩
  · intro hm
    have hv : validate_config env = Except.ok () := by
      simp [validate_config, hm]
    refine ⟨{ db_server := getenv env "DB_SERVER",
              db_database := getenv env "DB_DATABASE",
              db_username := getenv env "DB_USERNAME",
              db_password := getenv env "DB_PASSWORD",
              db_view := getenvD env "DB_VIEW" "your_view_name",
              db_table := getenvD env "DB_TABLE" "your_table_name",
              telegram_token := getenv env "TELEGRAM_BOT_TOKEN",
              telegram_chat_id := getenv env "TELEGRAM_CHAT_ID",
              poll_interval := n }, ?_⟩
    simp [DatabaseTelegramBot.init, hn, hv]
  · intro hm
    have hne : (missing_vars env).isEmpty = false := by
      cases hmv : missing_vars env
      · exact absurd hmv hm
      · rfl
    simp [DatabaseTelegramBot.init, hn, validate_config, hne]
  · intro v
    simp [missing_vars, List.mem_filter]

/-- C5 witness: with every required setting present and non-empty,
construction succeeds; with the username absent and the password empty,
construction fails naming exactly those two settings, in the order of
the required list. -/
theorem c5_witness :
    ((∃ n, pyInt (getenvD env_c5_ok "POLL_INTERVAL" "30") = some n) ∧
      missing_vars env_c5_ok = [] ∧
      ∃ bot, DatabaseTelegramBot.init env_c5_ok = Except.ok bot) ∧
    ((∃ n, pyInt (getenvD env_c5_missing "POLL_INTERVAL" "30") = some n) ∧
      missing_vars env_c5_missing = ["DB_USERNAME", "DB_PASSWORD"] ∧
      DatabaseTelegramBot.init env_c5_missing =
        Except.error (InitError.missingRequired ["DB_USERNAME", "DB_PASSWORD"])) := by
  refine ⟨⟨⟨30, by decide⟩, by decide, ?_⟩, ⟨30, by decide⟩, by decide, ?_⟩
  · exact (c5_required_settings_validated env_c5_ok ⟨30, by decide⟩).1 (by decide)
  · have h := (c5_required_settings_validated env_c5_missing
      ⟨30, by decide⟩).2.1 (by decide)
    simpa [show missing_vars env_c5_missing = ["DB_USERNAME", "DB_PASSWORD"]
      from by decide] using h

/-- C9: construction performs no positivity or range check on the poll
interval: with every required setting present, any POLL_INTERVAL value
accepted by int(), zero and negatives included, yields a constructed
object carrying exactly that interval; and a present, non-empty
POLL_INTERVAL value rejected by int() makes construction fail with the
int() error, which carries only the offending literal and names no
setting, before the required-settings validation runs, whatever the
rest of the environment holds. -/
theorem c9_poll_interval_unchecked :
    (∀ (env : Env) (n : Int),
      pyInt (getenvD env "POLL_INTERVAL" "30") = some n →
      missing_vars env = [] →
      ∃ bot, DatabaseTelegramBot.init env = Except.ok bot ∧
        bot.poll_interval = n) ∧
    (∀ (env : Env) (v : String),
      getenv env "POLL_INTERVAL" = some v → v ≠ "" → pyInt v = none →
      DatabaseTelegramBot.init env =
        Except.error (InitError.invalidIntLiteral v) ∧
      (InitError.invalidIntLiteral v).namedSettings = []) := by
  constructor
  · intro env n hn hm
    have hv : validate_config env = Except.ok () := by
      simp [validate_config, hm]
    refine ⟨{ db_server := getenv env "DB_SERVER",
              db_database := getenv env "DB_DATABASE",
              db_username := getenv env "DB_USERNAME",
              db_password := getenv env "DB_PASSWORD",
              db_view := getenvD env "DB_VIEW" "your_view_name",
              db_table := getenvD env "DB_TABLE" "your_table_name",
              telegram_token := getenv env "TELEGRAM_BOT_TOKEN",
              telegram_chat_id := getenv env "TELEGRAM_CHAT_ID",
              poll_interval := n }, ?_, rfl⟩
    simp [DatabaseTelegramBot.init, hn, hv]
  · intro env v hv hne hparse
    have hd : getenvD env "POLL_INTERVAL" "30" = v := by
      simp [getenvD, hv]
    exact ⟨by simp [DatabaseTelegramBot.init, hd, hparse], rfl⟩

/-- C9 witness: with every required setting present, the negative
literal -7 is accepted and stored as the poll interval; and an
environment holding only a malformed POLL_INTERVAL fails with the int()
parse error, not with the missing-settings error, although all six
required settings are absent. -/
theorem c9_witness :
    (pyInt (getenvD env_c9_neg "POLL_INTERVAL" "30") = some (-7) ∧
      missing_vars env_c9_neg = [] ∧
      ∃ bot, DatabaseTelegramBot.init env_c9_neg = Except.ok bot ∧
        bot.poll_interval = -7) ∧
    (getenv env_c9_parse "POLL_INTERVAL" = some "abc" ∧
      pyInt "abc" = none ∧
      DatabaseTelegramBot.init env_c9_parse =
        Except.error (InitError.invalidIntLiteral "abc")) :=
  ⟨⟨by decide, by decide,
    c9_poll_interval_unchecked.1 env_c9_neg (-7) (by decide) (by decide)⟩,
   ⟨by decide, by decide,
    (c9_poll_interval_unchecked.2 env_c9_parse "abc" (by decide) (by decide)
      (by decide)).1⟩⟩

/-- C10 witness: the empty string, the integer zero and None, each
explicitly supplied as destination, are all replaced by the configured
chat id. -/
theorem c10_witness :
    ((PyVal.vStr "").truthy = false ∧
      (send_telegram_message (PyVal.vStr "12345") HttpOutcome.success "m"
          (PyVal.vStr "")).chat_id = PyVal.vStr "12345") ∧
    ((PyVal.vInt 0).truthy = false ∧
      (send_telegram_message (PyVal.vStr "12345") HttpOutcome.success "m"
          (PyVal.vInt 0)).chat_id = PyVal.vStr "12345") ∧
    (PyVal.vNone.truthy = false ∧
      (send_telegram_message (PyVal.vStr "12345") HttpOutcome.success "m"
          PyVal.vNone).chat_id = PyVal.vStr "12345") :=
  ⟨⟨by decide, (c10_falsy_chat_id_replaced _ _ _ _).1 (by decide)⟩,
   ⟨by decide, (c10_falsy_chat_id_replaced _ _ _ _).1 (by decide)⟩,
   ⟨by decide, (c10_falsy_chat_id_replaced _ _ _ _).1 (by decide)⟩⟩

end DbTelegramRelay
